import Mathlib

/-!
# Verification of the jsonrpcserver dispatch core

A shallow embedding of the repository's Python sources:

* `src/jsonrpcserver/request.py` — `convert_camel_case_string`,
  `convert_camel_case_keys`, `get_arguments`, `Request`;
* `src/jsonrpcserver/dispatcher.py` — `_convert_params_to_args_and_kwargs`,
  `_call`, `Dispatcher.dispatch`, `Dispatcher.dispatch_str`.

JSON values are modelled by the inductive `JVal`; Python dicts are
association lists with unique keys (`List (String × JVal)`).  A Python
string is modelled, where character classes matter, as its list of code
points (`List Nat`).  Exceptions are modelled by `Except`: the body of the
`try:` block of `Dispatcher.dispatch` is `dispatchTry`, whose `.error`
values are the exceptions the Python code raises, and `dispatch` is the
full function including the two `except:` clauses.

The helper modules `exceptions.py`, `rpc.py` and `status.py` are imported
by `dispatcher.py` but are not among the sources; the definitions that
stand for them are modelled from the spec and marked as such in their
doc comments.
-/

/-- A JSON value, as produced by `json.loads`.  Numbers are modelled as
integers (no claim involves fractional numbers). -/
inductive JVal where
  | null : JVal
  | bool : Bool → JVal
  | num : Int → JVal
  | str : String → JVal
  | arr : List JVal → JVal
  | obj : List (String × JVal) → JVal
deriving Repr

/-- A JSON document that is an object: the model of a Python dict with
string keys, as an association list in insertion order. -/
abbrev Jdoc := List (String × JVal)

/-- Python `d[k]` / `d.get(k)` key lookup on a dict (unique keys, so the
first match is the only one). -/
def pyGet (d : Jdoc) (k : String) : Option JVal :=
  match d.find? (fun p => p.1 == k) with
  | some p => some p.2
  | none => none

/-- Python `d.get(k)` as seen by an `is not None` test: an explicit JSON
`null` and an absent key both give Python `None`. -/
def pyGetNonNull (d : Jdoc) (k : String) : Option JVal :=
  match pyGet d k with
  | some JVal.null => none
  | o => o

/-- Python `d[k] = v` on a dict: overwrite the value in place if the key
exists, otherwise append the new entry. -/
def setKey (d : Jdoc) (k : String) (v : JVal) : Jdoc :=
  if d.any (fun p => p.1 == k) then
    d.map (fun p => if p.1 == k then (k, v) else p)
  else
    d ++ [(k, v)]

/-- Remove a key from a dict, as Python `d.pop(k)` does (in the dispatcher
the key is always present when popped). -/
def removeKey (d : Jdoc) (k : String) : Jdoc :=
  d.filter (fun p => p.1 != k)

/-! ## `convert_camel_case_string` (`request.py` lines 14–17)

```python
def convert_camel_case_string(name: str) -> str:
    string = re.sub("(.)([A-Z][a-z]+)", r"\1_\2", name)
    return re.sub("([a-z0-9])([A-Z])", r"\1_\2", string).lower()
```

Strings are modelled as lists of Unicode code points.  `re.sub` scans left
to right, replaces each non-overlapping leftmost match, and resumes after
the matched text; `.` does not match a newline (no DOTALL flag), `[A-Z]`,
`[a-z]`, `[0-9]` are the ASCII classes, and `+` is greedy, so
`[A-Z][a-z]+` consumes the maximal nonempty lowercase run.
-/

/-- ASCII `[A-Z]` on a code point. -/
def isUpperCp (c : Nat) : Bool := 65 ≤ c && c ≤ 90

/-- ASCII `[a-z]` on a code point. -/
def isLowerCp (c : Nat) : Bool := 97 ≤ c && c ≤ 122

/-- ASCII `[a-z0-9]` on a code point. -/
def isLowerDigitCp (c : Nat) : Bool := isLowerCp c || (48 ≤ c && c ≤ 57)

/-- Code point of `_`. -/
def underscoreCp : Nat := 95

/-- Code point of the newline, which `.` does not match. -/
def newlineCp : Nat := 10

/-- Dropping a prefix never lengthens a list (used for termination of the
regex scan). -/
theorem dropWhile_length_le (p : Nat → Bool) :
    ∀ l : List Nat, (l.dropWhile p).length ≤ l.length := by
  intro l
  induction l with
  | nil => simp [List.dropWhile]
  | cons a l ih =>
    simp only [List.dropWhile]
    cases p a
    · simp
    · simp
      omega

/-- Model of `re.sub("(.)([A-Z][a-z]+)", r"\1_\2", s)`: at each position, a match is
any non-newline character, an uppercase letter, and a maximal nonempty
lowercase run; an underscore is inserted after the first character and
scanning resumes after the run. -/
def subCamel1 : List Nat → List Nat
  | [] => []
  | [c] => [c]
  | c1 :: c2 :: rest =>
    if c1 ≠ newlineCp && isUpperCp c2 &&
        (match rest with | c3 :: _ => isLowerCp c3 | [] => false) then
      c1 :: underscoreCp :: c2 ::
        (rest.takeWhile isLowerCp ++ subCamel1 (rest.dropWhile isLowerCp))
    else
      c1 :: subCamel1 (c2 :: rest)
termination_by l => l.length
decreasing_by
  · simp only [List.length_cons]
    have h := dropWhile_length_le isLowerCp rest
    omega
  · simp only [List.length_cons]
    omega

/-- Model of `re.sub("([a-z0-9])([A-Z])", r"\1_\2", s)`: an underscore is inserted
between a lowercase-or-digit character and an uppercase one; scanning
resumes after the uppercase character. -/
def subCamel2 : List Nat → List Nat
  | [] => []
  | [c] => [c]
  | c1 :: c2 :: rest =>
    if isLowerDigitCp c1 && isUpperCp c2 then
      c1 :: underscoreCp :: c2 :: subCamel2 rest
    else
      c1 :: subCamel2 (c2 :: rest)
termination_by l => l.length

/-- Python `str.lower()` on one code point, for the ASCII range the
regexes operate on. -/
def lowerCp (c : Nat) : Nat :=
  if isUpperCp c then c + 32 else c

/-- The function `convert_camel_case_string` from `request.py`: the two substitutions
followed by `.lower()`. -/
def convert_camel_case_string (s : List Nat) : List Nat :=
  (subCamel2 (subCamel1 s)).map lowerCp

/-- The same conversion acting on a Lean `String`, through its
code points. -/
def convertCamelString (s : String) : String :=
  String.mk ((convert_camel_case_string (s.data.map Char.toNat)).map Char.ofNat)

/-! ## `convert_camel_case_keys` (`request.py` lines 20–29)

The Python function builds a fresh dict, converting each key and recursing
into values that are themselves dicts; assigning into the fresh dict is
`setKey` (a converted-key collision overwrites the earlier entry in
place). -/

mutual

/-- The function `convert_camel_case_keys` from `request.py`: convert all keys of a
dict from camel case to snake case, recursively. -/
def convert_camel_case_keys (d : Jdoc) : Jdoc :=
  convertEntriesAux d []
termination_by (sizeOf d, 1)

/-- The loop of `convert_camel_case_keys`: fold the entries into the new
dict being built. -/
def convertEntriesAux : Jdoc → Jdoc → Jdoc
  | [], acc => acc
  | (k, v) :: rest, acc =>
    match v with
    | JVal.obj inner =>
      convertEntriesAux rest
        (setKey acc (convertCamelString k) (JVal.obj (convert_camel_case_keys inner)))
    | _ => convertEntriesAux rest (setKey acc (convertCamelString k) v)
termination_by rest _ => (sizeOf rest, 0)

end

/-! ## `get_arguments` (`request.py` lines 32–75)

```python
positionals, nameds = [], {}
if isinstance(params, list):
    positionals = params
elif isinstance(params, dict):
    nameds = params
assert not (positionals and nameds), "..."
if context is not UNSPECIFIED:
    nameds["context"] = context
return (positionals, nameds)
```

`context = none` models the `UNSPECIFIED` sentinel (argument not
supplied).  The `assert` condition is always true at its program point —
a single `params` value is a list or a dict, never both, so at most one
of `positionals`/`nameds` is non-empty there — so the function is total;
the condition itself is proved below. -/

/-- The positional/named split computed before the assert and before
context injection. -/
def paramsSplit (params : JVal) : List JVal × Jdoc :=
  match params with
  | JVal.arr xs => (xs, [])
  | JVal.obj kvs => ([], kvs)
  | _ => ([], [])

/-- The function `get_arguments` from `request.py`. -/
def get_arguments (params : JVal) (context : Option JVal) : List JVal × Jdoc :=
  let pn := paramsSplit params
  match context with
  | none => pn
  | some c => (pn.1, setKey pn.2 "context" c)

/-! ## `Request` (`request.py` lines 78–128) -/

/-- The normalized `Request` object.  `id = none` models the `NOID`
sentinel (no `id` argument supplied at all); `some JVal.null` is an
explicit JSON `null` id. -/
structure Request where
  jsonrpc : Option String
  method : String
  args : List JVal
  kwargs : Jdoc
  id : Option JVal
deriving Repr

/-- Constructor `Request.__init__`: `params = none` models the `UNSPECIFIED` default;
`get_arguments` is called only when `params` is a list or a dict,
otherwise `args`/`kwargs` are empty.  When `convert_camel_case` is set the
method name is rewritten, and the kwargs keys too when kwargs is
non-empty (Python's truthiness test `if self.kwargs:`). -/
def Request.build (method : String) (jsonrpc : Option String)
    (params : Option JVal) (id : Option JVal)
    (convert_camel_case : Bool) (context : Option JVal) : Request :=
  let ak : List JVal × Jdoc :=
    match params with
    | some (JVal.arr xs) => get_arguments (JVal.arr xs) context
    | some (JVal.obj kvs) => get_arguments (JVal.obj kvs) context
    | _ => ([], [])
  let r : Request := ⟨jsonrpc, method, ak.1, ak.2, id⟩
  if convert_camel_case then
    { r with
      method := convertCamelString r.method
      kwargs := if r.kwargs.isEmpty then r.kwargs else convert_camel_case_keys r.kwargs }
  else r

/-- Property `Request.is_notification`: `self.id is NOID`. -/
def Request.is_notification (r : Request) : Bool :=
  r.id.isNone

/-! ## The error taxonomy (`exceptions.py`, `status.py` — not among the
sources; modelled from the spec)

The spec's table §6 gives each kind its JSON-RPC code and HTTP status:
ParseError −32700/400, InvalidRequest −32600/400, MethodNotFound
−32601/404, InvalidParams −32602/400, ServerError −32000/500.  `dispatch`
raises `InvalidRequest(e.message)`, `MethodNotFound(request_method)`,
`InvalidParams(str(e))` and uses `ServerError('See server logs')`, so
those kinds carry that detail as their `data`.  The unconditional
`response['error'].pop('data')` at `dispatcher.py` lines 157/166 shows
that the serialized form of every such error always carries a `data` key;
it is modelled as JSON `null` when the kind has no detail. -/

/-- A `JsonRpcServerError` from the missing `exceptions.py`, modelled from
the spec's error taxonomy.  `methodNotFound` carries the request's
`method` value (the argument of `MethodNotFound(request_method)`). -/
inductive RpcError where
  | parseError : RpcError
  | invalidRequest : String → RpcError
  | methodNotFound : JVal → RpcError
  | invalidParams : String → RpcError
  | serverError : String → RpcError
deriving Repr

/-- Modelled from the spec: the JSON-RPC error code of each taxonomy
kind (spec §6 table). -/
def RpcError.code : RpcError → Int
  | .parseError => -32700
  | .invalidRequest _ => -32600
  | .methodNotFound _ => -32601
  | .invalidParams _ => -32602
  | .serverError _ => -32000

/-- Modelled from the spec: the HTTP status of each taxonomy kind
(spec §6 table). -/
def RpcError.httpStatus : RpcError → Nat
  | .parseError => 400
  | .invalidRequest _ => 400
  | .methodNotFound _ => 404
  | .invalidParams _ => 400
  | .serverError _ => 500

/-- Modelled from the spec: the default message of each taxonomy kind. -/
def RpcError.message : RpcError → String
  | .parseError => "Parse error"
  | .invalidRequest _ => "Invalid request"
  | .methodNotFound _ => "Method not found"
  | .invalidParams _ => "Invalid params"
  | .serverError _ => "Server error"

/-- Modelled from the spec: the `data` member of each taxonomy kind — the
detail it was raised with (`null` for `ParseError`, which has none). -/
def RpcError.data : RpcError → JVal
  | .parseError => JVal.null
  | .invalidRequest d => JVal.str d
  | .methodNotFound m => m
  | .invalidParams d => JVal.str d
  | .serverError d => JVal.str d

/-- Modelled from the spec: the serialized `error` member of `str(e)` for
a `JsonRpcServerError`, keys in the order `code`, `message`, `data`
(spec §3). -/
def errorBody (e : RpcError) : Jdoc :=
  [("code", JVal.num e.code), ("message", JVal.str e.message),
   ("data", e.data)]

/-- Modelled from the spec: the whole serialized error response document
`json.loads(str(e))`; the `id` key is present exactly when the error's
`request_id` is a present, non-`None` value (spec §3: error responses to
un-parseable input may omit `id` entirely). -/
def errorDocFull (e : RpcError) (rid : Option JVal) : Jdoc :=
  [("jsonrpc", JVal.str "2.0"), ("error", JVal.obj (errorBody e))] ++
    (match rid with
     | some v => [("id", v)]
     | none => [])

/-- Model of `response['error'].pop('data')` (`dispatcher.py` lines 157 and 166):
remove the `data` key of the `error` member. -/
def popErrorData (doc : Jdoc) : Jdoc :=
  doc.map (fun p =>
    if p.1 == "error" then
      (p.1, match p.2 with
            | JVal.obj kvs => JVal.obj (removeKey kvs "data")
            | v => v)
    else p)

/-- The error response document built by `dispatch`'s `except` clauses
(`dispatcher.py` lines 152–166): the serialized error, with `data`
stripped unless debug mode is on. -/
def dispatchErrorResponse (e : RpcError) (rid : Option JVal)
    (debug : Bool) : Jdoc :=
  let r := errorDocFull e rid
  if debug then r else popErrorData r

/-! ## Handlers and the binder (`dispatcher.py` lines 53–61)

A registered RPC method is an opaque Python callable.  It is modelled by
two fields: `bindErr args kwargs` is the outcome of
`signature(func).bind(*args, **kwargs)` — `some msg` when that raises
`TypeError msg`, i.e. the arguments do not fit the callable's signature —
and `run args kwargs` is the outcome of the actual call. -/

/-- The outcome of calling a Python function: a return value, a raised
`JsonRpcServerError`, or any other raised exception. -/
inductive Outcome where
  | ok : JVal → Outcome
  | raiseRpc : RpcError → Outcome
  | raiseExn : String → Outcome

/-- A registered RPC method: its signature-binding check and its body. -/
structure Handler where
  bindErr : List JVal → Jdoc → Option String
  run : List JVal → Jdoc → Outcome

/-- The function `_call` from `dispatcher.py` lines 53–61: check the arguments against
the signature first, raising `InvalidParams` if they do not bind, then
call the function. -/
def pyCall (h : Handler) (args : List JVal) (kwargs : Jdoc) : Outcome :=
  match h.bindErr args kwargs with
  | some m => Outcome.raiseRpc (RpcError.invalidParams m)
  | none => h.run args kwargs

/-! ## `_convert_params_to_args_and_kwargs` (`dispatcher.py` lines 24–50)
and the call site (lines 129–141) -/

/-- The function `_convert_params_to_args_and_kwargs`: `args = kwargs = None`, then
a dict becomes `kwargs` and a list becomes `args`; anything else — absent,
`null`, or a bare scalar — leaves both `None` (despite the docstring's
claim that a single value becomes one positional argument). -/
def convertParams (params : Option JVal) : Option (List JVal) × Option Jdoc :=
  match params with
  | some (JVal.obj kvs) => (none, some kvs)
  | some (JVal.arr xs) => (some xs, none)
  | _ => (none, none)

/-- Python truthiness of `positional_args`: `None` and `[]` are falsy. -/
def truthyArgs : Option (List JVal) → Bool
  | none => false
  | some l => !l.isEmpty

/-- Python truthiness of `keyword_args`: `None` and `{}` are falsy. -/
def truthyKwargs : Option Jdoc → Bool
  | none => false
  | some l => !l.isEmpty

/-- The three `if` statements of `dispatcher.py` lines 129–141 (their
conditions are mutually exclusive, so sequential `if`s and a chain are the
same): call with no arguments, positionally, or with keywords.  When both
are truthy (never produced by `_convert_params_to_args_and_kwargs`, line
140's comment) no call happens and `result` stays `None`. -/
def invoke (h : Handler) (pa : Option (List JVal)) (ka : Option Jdoc) :
    Outcome :=
  if !truthyArgs pa && !truthyKwargs ka then pyCall h [] []
  else if truthyArgs pa && !truthyKwargs ka then pyCall h (pa.getD []) []
  else if !truthyArgs pa && truthyKwargs ka then pyCall h [] (ka.getD [])
  else Outcome.ok JVal.null

/-! ## The `Dispatcher` (`dispatcher.py` lines 64–184) -/

/-- The dispatcher's state: the `_rpc_methods` registry (a dict from
method name to callable, as an association list), and the
`validate_requests` and `debug` flags. -/
structure Dispatcher where
  methods : List (String × Handler)
  validate_requests : Bool
  debug : Bool

/-- Registry lookup `self._rpc_methods[name]` for a string key. -/
def findMethod (ms : List (String × Handler)) (name : String) :
    Option Handler :=
  match ms.find? (fun p => p.1 == name) with
  | some p => some p.2
  | none => none

/-- Modelled from the spec: the JSON-RPC 2.0 request schema
(`request-schema.json` is not among the sources).  Spec §4.2 step 1:
required `jsonrpc` = "2.0", required `method` string, optional `params`
as object or array, optional `id` as string/number/null; the document
itself must be an object (spec §3, §6). -/
def validRequest (req : Jdoc) : Bool :=
  (match pyGet req "jsonrpc" with
   | some (JVal.str s) => s == "2.0"
   | _ => false) &&
  (match pyGet req "method" with
   | some (JVal.str _) => true
   | _ => false) &&
  (match pyGet req "params" with
   | none => true
   | some (JVal.arr _) => true
   | some (JVal.obj _) => true
   | _ => false) &&
  (match pyGet req "id" with
   | none => true
   | some JVal.null => true
   | some (JVal.str _) => true
   | some (JVal.num _) => true
   | _ => false)

/-- An exception escaping the body of `dispatch`'s `try:` block: either a
`JsonRpcServerError` (caught at line 153) or any other exception (caught
at line 160). -/
inductive DispatchExn where
  | rpc : RpcError → DispatchExn
  | exn : String → DispatchExn

/-- Model of `self._rpc_methods[request_method]` where `request_method` is the raw
`request['method']` value: a string key is looked up (`KeyError` becomes
`MethodNotFound`); an unhashable value (list/dict) raises `TypeError`;
any other hashable non-string value is never a registry key, so it is a
`KeyError` and becomes `MethodNotFound` as well. -/
def methodLookup (ms : List (String × Handler)) (m : JVal) :
    Except DispatchExn Handler :=
  match m with
  | JVal.str s =>
    match findMethod ms s with
    | some h => Except.ok h
    | none => Except.error (DispatchExn.rpc (RpcError.methodNotFound (JVal.str s)))
  | JVal.arr _ => Except.error (DispatchExn.exn "TypeError: unhashable type: list")
  | JVal.obj _ => Except.error (DispatchExn.exn "TypeError: unhashable type: dict")
  | other => Except.error (DispatchExn.rpc (RpcError.methodNotFound other))

/-- Modelled from the spec: `rpc_success_response` from the missing
`rpc.py` — the success document `{"jsonrpc": "2.0", "result": result,
"id": id}` (spec §3: keys `jsonrpc`, `result`, `id`). -/
def rpc_success_response (id : JVal) (result : JVal) : Jdoc :=
  [("jsonrpc", JVal.str "2.0"), ("result", result), ("id", id)]

/-- The body of the `try:` block of `Dispatcher.dispatch`
(`dispatcher.py` lines 105–150): validation, `request['method']`, params
conversion, registry lookup, the guarded call, then the id-dependent
success/notification branch.  An `.error` value is the exception the
Python code raises at that point. -/
def dispatchTry (d : Dispatcher) (req : Jdoc) :
    Except DispatchExn (Option Jdoc × Nat) :=
  if d.validate_requests && !validRequest req then
    Except.error (DispatchExn.rpc
      (RpcError.invalidRequest "request does not match the JSON-RPC schema"))
  else
    match pyGet req "method" with
    | none => Except.error (DispatchExn.exn "KeyError: method")
    | some m =>
      match methodLookup d.methods m with
      | Except.error e => Except.error e
      | Except.ok h =>
        match invoke h (convertParams (pyGet req "params")).1
            (convertParams (pyGet req "params")).2 with
        | Outcome.raiseRpc e => Except.error (DispatchExn.rpc e)
        | Outcome.raiseExn s => Except.error (DispatchExn.exn s)
        | Outcome.ok result =>
          match pyGetNonNull req "id" with
          | some idv => Except.ok (some (rpc_success_response idv result), 200)
          | none => Except.ok (none, 204)

/-- The method `Dispatcher.dispatch` (`dispatcher.py` lines 90–173): run the `try:`
body; a `JsonRpcServerError` gets the request's id attached
(`request.get('id')`, so an explicit `null` id and an absent id are
alike) and is serialized with its own status; any other exception is
converted to `ServerError('See server logs')` with status 500 and no id
attached.  In both cases `data` is stripped unless debug mode is on. -/
def dispatch (d : Dispatcher) (req : Jdoc) : Option Jdoc × Nat :=
  match dispatchTry d req with
  | Except.ok r => r
  | Except.error (DispatchExn.rpc e) =>
    (some (dispatchErrorResponse e (pyGetNonNull req "id") d.debug),
     e.httpStatus)
  | Except.error (DispatchExn.exn _) =>
    (some (dispatchErrorResponse (RpcError.serverError "See server logs")
      none d.debug), 500)

/-! ## `Dispatcher.dispatch_str` (`dispatcher.py` lines 175–184)

`json.loads` on an arbitrary input string is represented by its outcome:
a `ValueError` (malformed document), a JSON object, or some other JSON
value.  A non-object value makes the Python `dispatch` raise: with
validation on, the raised `InvalidRequest`'s handler evaluates
`request.get('id')` on a non-dict, and the resulting `AttributeError`
inside the `except` clause propagates; with validation off, subscripting
the non-dict raises `TypeError`, which the generic clause turns into a
500 response. -/

/-- The outcome of `json.loads(request)` on the input string. -/
inductive ParseOutcome where
  | failure : ParseOutcome
  | parsedDict : Jdoc → ParseOutcome
  | parsedOther : JVal → ParseOutcome

/-- What a call of `dispatch_str` does: return a pair, or let an
exception propagate to the caller. -/
inductive StrResult where
  | returned : Option Jdoc → Nat → StrResult
  | raised : String → StrResult
deriving Repr

/-- The method `Dispatcher.dispatch_str`: parse first; a parse failure
short-circuits to `json.loads(str(ParseError()))` with status 400 — note
this path never strips `data` and touches neither the registry nor the
flags. -/
def dispatch_str (d : Dispatcher) (p : ParseOutcome) : StrResult :=
  match p with
  | ParseOutcome.failure =>
    StrResult.returned (some (errorDocFull RpcError.parseError none)) 400
  | ParseOutcome.parsedDict kvs =>
    let r := dispatch d kvs
    StrResult.returned r.1 r.2
  | ParseOutcome.parsedOther _ =>
    if d.validate_requests then
      StrResult.raised "AttributeError: request has no attribute get"
    else
      StrResult.returned
        (some (dispatchErrorResponse (RpcError.serverError "See server logs")
          none d.debug)) 500

/-! ## Concrete handlers used to instantiate the theorems -/

/-- A handler that accepts any arguments and returns `"pong"`. -/
def pingHandler : Handler :=
  ⟨fun _ _ => none, fun _ _ => Outcome.ok (JVal.str "pong")⟩

/-- A handler that accepts any arguments and raises a non-taxonomy
exception. -/
def boomHandler : Handler :=
  ⟨fun _ _ => none, fun _ _ => Outcome.raiseExn "ValueError: boom"⟩

/-- A handler that returns its received arguments, to observe how it was
invoked. -/
def echoHandler : Handler :=
  ⟨fun _ _ => none, fun args kwargs => Outcome.ok (JVal.arr [JVal.arr args, JVal.obj kwargs])⟩

/-! ## The spec's invocation shape (for the refinement comparison)

These two definitions follow the spec's words, not the code: "if `params`
is a JSON object, the handler is invoked with exactly its entries as
keyword arguments and no positional arguments; if `params` is a JSON
array, with exactly its elements as positional arguments and no keyword
arguments; if `params` is absent or null, with no arguments at all." -/

/-- The positional arguments the spec says the handler receives. -/
def specArgsOf : Option JVal → List JVal
  | some (JVal.arr xs) => xs
  | _ => []

/-- The keyword arguments the spec says the handler receives. -/
def specKwargsOf : Option JVal → Jdoc
  | some (JVal.obj kvs) => kvs
  | _ => []

/-! # Theorems

## Idempotence of the camel-case conversion (C7) -/

/-- Lowering a code point never yields an ASCII uppercase letter. -/
theorem isUpperCp_lowerCp (c : Nat) : isUpperCp (lowerCp c) = false := by
  unfold lowerCp
  split
  · next h =>
    simp only [isUpperCp, Bool.and_eq_true, decide_eq_true_eq] at h
    simp only [isUpperCp, Bool.and_eq_false_iff, decide_eq_false_iff_not]
    omega
  · next h =>
    simpa using h

/-- Every code point of a converted string is non-uppercase. -/
theorem convert_no_upper (s : List Nat) :
    ∀ c ∈ convert_camel_case_string s, isUpperCp c = false := by
  intro c hc
  unfold convert_camel_case_string at hc
  rcases List.mem_map.mp hc with ⟨c', _, rfl⟩
  exact isUpperCp_lowerCp c'

/-- The first substitution is the identity on strings without ASCII
uppercase letters: every match needs an uppercase letter. -/
theorem subCamel1_of_no_upper :
    ∀ l : List Nat, (∀ c ∈ l, isUpperCp c = false) → subCamel1 l = l
  | [], _ => by simp [subCamel1]
  | [c], _ => by simp [subCamel1]
  | c1 :: c2 :: rest, h => by
    have h2 : isUpperCp c2 = false := h c2 (by simp)
    have hrec : subCamel1 (c2 :: rest) = c2 :: rest :=
      subCamel1_of_no_upper (c2 :: rest) (fun c hc => h c (List.mem_cons_of_mem c1 hc))
    rw [subCamel1.eq_def]
    simp [h2, hrec]
termination_by l => l.length

/-- The second substitution is the identity on strings without ASCII
uppercase letters. -/
theorem subCamel2_of_no_upper :
    ∀ l : List Nat, (∀ c ∈ l, isUpperCp c = false) → subCamel2 l = l
  | [], _ => by simp [subCamel2]
  | [c], _ => by simp [subCamel2]
  | c1 :: c2 :: rest, h => by
    have h2 : isUpperCp c2 = false := h c2 (by simp)
    have hrec : subCamel2 (c2 :: rest) = c2 :: rest :=
      subCamel2_of_no_upper (c2 :: rest) (fun c hc => h c (List.mem_cons_of_mem c1 hc))
    rw [subCamel2.eq_def]
    simp [h2, hrec]
termination_by l => l.length

/-- Lowering is the identity on strings without ASCII uppercase
letters. -/
theorem map_lowerCp_of_no_upper (l : List Nat)
    (h : ∀ c ∈ l, isUpperCp c = false) : l.map lowerCp = l := by
  induction l with
  | nil => simp
  | cons a l ih =>
    have ha : isUpperCp a = false := h a (by simp)
    have : lowerCp a = a := by simp [lowerCp, ha]
    simp [this, ih (fun c hc => h c (List.mem_cons_of_mem a hc))]

/-- C7: the camelCase-to-snake_case conversion is idempotent: for every
string `s` (as its list of code points),
`convert_camel_case_string (convert_camel_case_string s) =
convert_camel_case_string s`. -/
theorem claim_C7_convert_camel_case_idempotent (s : List Nat) :
    convert_camel_case_string (convert_camel_case_string s) =
      convert_camel_case_string s := by
  have hno := convert_no_upper s
  conv_lhs => rw [convert_camel_case_string]
  rw [subCamel1_of_no_upper _ hno, subCamel2_of_no_upper _ hno,
    map_lowerCp_of_no_upper _ hno]

/-! ## The Request layer: notification flag (C6) and the
args/kwargs invariant (C4) -/

/-- C6: `is_notification` is true iff no `id` was supplied at
construction (the `NOID` sentinel, modelled as `none`); in particular a
Request built with an explicit `null` id has `is_notification = false`. -/
theorem claim_C6_is_notification_iff_no_id :
    (∀ (method : String) (jsonrpc : Option String) (params : Option JVal)
        (id : Option JVal) (ccc : Bool) (ctx : Option JVal),
      (Request.build method jsonrpc params id ccc ctx).is_notification =
        id.isNone) ∧
    (Request.build "m" none none (some JVal.null) false
        none).is_notification = false := by
  constructor
  · intro method jsonrpc params id ccc ctx
    cases ccc <;> simp [Request.build, Request.is_notification]
  · rfl

/-- C4 counterexample: the claim's own "in particular" instance fails on
the code — a Request built from the non-empty list params `[1]` together
with a supplied context `2` has `args = [1]` and
`kwargs = {"context": 2}`, both non-empty, because `get_arguments`
injects the context after its disjointness assert. -/
theorem claim_C4_counterexample :
    (Request.build "m" none (some (JVal.arr [JVal.num 1])) none false
        (some (JVal.num 2))).args = [JVal.num 1] ∧
    (Request.build "m" none (some (JVal.arr [JVal.num 1])) none false
        (some (JVal.num 2))).kwargs = [("context", JVal.num 2)] ∧
    [JVal.num 1] ≠ ([] : List JVal) ∧
    [("context", JVal.num 2)] ≠ ([] : Jdoc) := by
  refine ⟨rfl, rfl, ?_, ?_⟩ <;> simp

/-- C4 (amended): for every constructible Request with no supplied
context, `args` and `kwargs` are never both non-empty; the disjointness
assert of `get_arguments` (checked on the split of `params`, before
context injection) holds for every params value; and a supplied
(non-ABSENT) context is injected into `kwargs` under the key `"context"`
— which is exactly why, for a non-empty list params with a supplied
context, both are non-empty. -/
theorem claim_C4_args_kwargs_disjointness_amended :
    (∀ (method : String) (jsonrpc : Option String) (params : Option JVal)
        (id : Option JVal) (ccc : Bool),
      (Request.build method jsonrpc params id ccc none).args = [] ∨
      (Request.build method jsonrpc params id ccc none).kwargs = []) ∧
    (∀ params : JVal,
      (paramsSplit params).1 = [] ∨ (paramsSplit params).2 = []) ∧
    (∀ (xs : List JVal) (c : JVal),
      get_arguments (JVal.arr xs) (some c) = (xs, [("context", c)])) := by
  refine ⟨?_, ?_, ?_⟩
  · intro method jsonrpc params id ccc
    rcases params with _ | v
    · cases ccc <;> simp [Request.build]
    · cases v <;> cases ccc <;>
        simp [Request.build, get_arguments, paramsSplit]
  · intro params
    cases params <;> simp [paramsSplit]
  · intro xs c
    rfl

/-! ## Scalar params are silently accepted (C3, code-bug evidence) -/

/-- C3: the code evaluated at the failing input.  A bare-number `params`
raises nothing anywhere: `get_arguments` returns empty positionals and
nameds (its docstring claims it raises `TypeError`),
`_convert_params_to_args_and_kwargs` returns `(None, None)` (its
docstring claims a single value becomes one positional argument), Request
construction succeeds with empty args/kwargs, and the dispatcher
(validation off) invokes the handler with no arguments and answers with
success, rather than failing with an `InvalidArguments` error. -/
theorem claim_C3_scalar_params_not_rejected :
    get_arguments (JVal.num 5) none = ([], []) ∧
    get_arguments (JVal.num 5) (some (JVal.str "ctx")) =
      ([], [("context", JVal.str "ctx")]) ∧
    (Request.build "m" none (some (JVal.num 5)) none false none).args = [] ∧
    (Request.build "m" none (some (JVal.num 5)) none false none).kwargs = [] ∧
    convertParams (some (JVal.num 5)) = (none, none) ∧
    dispatch ⟨[("m", echoHandler)], false, false⟩
        [("method", JVal.str "m"), ("params", JVal.num 5),
         ("id", JVal.num 1)] =
      (some (rpc_success_response (JVal.num 1)
        (JVal.arr [JVal.arr [], JVal.obj []])), 200) := by
  exact ⟨rfl, rfl, rfl, rfl, rfl, rfl⟩

/-! ## Invocation shape (C5) -/

/-- The call made at `dispatcher.py` lines 129–141 on the converted
params agrees with the spec's invocation shape: object params become
exactly the keyword arguments, array params exactly the positional ones,
anything else no arguments (the empty-list and empty-object cases land in
the no-argument branch, which is the same call). -/
theorem invoke_convertParams (h : Handler) (params : Option JVal) :
    invoke h (convertParams params).1 (convertParams params).2 =
      pyCall h (specArgsOf params) (specKwargsOf params) := by
  rcases params with _ | v
  · rfl
  · cases v with
    | null => rfl
    | bool b => rfl
    | num n => rfl
    | str s => rfl
    | arr xs => cases xs <;> rfl
    | obj kvs => cases kvs <;> rfl

/-- C5: for every dispatched request, the handler is invoked with exactly
the shape the spec states: object params as keyword arguments only, array
params as positional arguments only, absent/null params as no arguments —
both at the call site (`invoke` over `_convert_params_to_args_and_kwargs`)
and through `dispatch`'s whole `try:` body once the method is found. -/
theorem claim_C5_handler_invocation_shape :
    (∀ (h : Handler) (params : Option JVal),
      invoke h (convertParams params).1 (convertParams params).2 =
        pyCall h (specArgsOf params) (specKwargsOf params)) ∧
    (∀ (d : Dispatcher) (req : Jdoc) (m : JVal) (hd : Handler),
      (d.validate_requests && !validRequest req) = false →
      pyGet req "method" = some m →
      methodLookup d.methods m = Except.ok hd →
      dispatchTry d req =
        (match pyCall hd (specArgsOf (pyGet req "params"))
            (specKwargsOf (pyGet req "params")) with
         | Outcome.ok result =>
           (match pyGetNonNull req "id" with
            | some idv => Except.ok (some (rpc_success_response idv result), 200)
            | none => Except.ok (none, 204))
         | Outcome.raiseRpc e => Except.error (DispatchExn.rpc e)
         | Outcome.raiseExn s => Except.error (DispatchExn.exn s))) := by
  constructor
  · exact invoke_convertParams
  · intro d req m hd hval hm hlk
    unfold dispatchTry
    rw [hval, hm]
    simp only [Bool.false_eq_true, if_false, hlk, invoke_convertParams]
    rcases pyCall hd (specArgsOf (pyGet req "params"))
        (specKwargsOf (pyGet req "params")) with v | e | s <;> rfl

/-- C5 witness: the dispatch-level conjunct applied to a concrete
dispatcher, request and handler, and the call-site conjunct at concrete
array params. -/
theorem claim_C5_witness :
    dispatchTry ⟨[("echo", echoHandler)], false, false⟩
        [("method", JVal.str "echo"),
         ("params", JVal.obj [("a", JVal.num 1)])] =
      Except.ok (none, 204) ∧
    invoke pingHandler (convertParams (some (JVal.arr [JVal.num 7]))).1
        (convertParams (some (JVal.arr [JVal.num 7]))).2 =
      pyCall pingHandler [JVal.num 7] [] := by
  constructor
  · have h := claim_C5_handler_invocation_shape.2
      ⟨[("echo", echoHandler)], false, false⟩
      [("method", JVal.str "echo"), ("params", JVal.obj [("a", JVal.num 1)])]
      (JVal.str "echo") echoHandler rfl rfl rfl
    exact h.trans rfl
  · exact claim_C5_handler_invocation_shape.1 pingHandler
      (some (JVal.arr [JVal.num 7]))

/-! ## The success and notification branches of `dispatch` (C1, C2) -/

/-- Lookup `request.get(k)` is the present value when that value is not
`null`. -/
theorem pyGetNonNull_of_ne_null (d : Jdoc) (k : String) (v : JVal)
    (h : pyGet d k = some v) (hv : v ≠ JVal.null) :
    pyGetNonNull d k = some v := by
  unfold pyGetNonNull
  rw [h]
  cases v with
  | null => exact absurd rfl hv
  | bool b => rfl
  | num n => rfl
  | str s => rfl
  | arr xs => rfl
  | obj kvs => rfl

/-- C1: a request with a present non-null id, whose method is a
registered handler that binds and returns `R` without raising, gets a
success response whose `result` is `R` and whose `id` is the request's
id, with status 200. -/
theorem claim_C1_success_response
    (d : Dispatcher) (req : Jdoc) (name : String) (h : Handler)
    (idv R : JVal)
    (hval : d.validate_requests = false ∨ validRequest req = true)
    (hm : pyGet req "method" = some (JVal.str name))
    (hfind : findMethod d.methods name = some h)
    (hrun : invoke h (convertParams (pyGet req "params")).1
        (convertParams (pyGet req "params")).2 = Outcome.ok R)
    (hid : pyGet req "id" = some idv) (hnn : idv ≠ JVal.null) :
    dispatch d req = (some (rpc_success_response idv R), 200) ∧
    pyGet (rpc_success_response idv R) "result" = some R ∧
    pyGet (rpc_success_response idv R) "id" = some idv := by
  have hvb : (d.validate_requests && !validRequest req) = false := by
    rcases hval with h1 | h1 <;> simp [h1]
  have hidn := pyGetNonNull_of_ne_null req "id" idv hid hnn
  refine ⟨?_, rfl, rfl⟩
  unfold dispatch dispatchTry
  rw [hvb, hm]
  simp only [methodLookup, hfind, hrun, hidn, Bool.false_eq_true, if_false]

/-- C1 witness: the `ping` scenario of the spec — request
`{"jsonrpc": "2.0", "method": "ping", "id": 1}` against a registry whose
`ping` returns `"pong"`, with validation on. -/
theorem claim_C1_witness :
    dispatch ⟨[("ping", pingHandler)], true, false⟩
        [("jsonrpc", JVal.str "2.0"), ("method", JVal.str "ping"),
         ("id", JVal.num 1)] =
      (some (rpc_success_response (JVal.num 1) (JVal.str "pong")), 200) :=
  (claim_C1_success_response
    ⟨[("ping", pingHandler)], true, false⟩
    [("jsonrpc", JVal.str "2.0"), ("method", JVal.str "ping"),
     ("id", JVal.num 1)]
    "ping" pingHandler (JVal.num 1) (JVal.str "pong")
    (Or.inr rfl) rfl rfl rfl rfl
    (fun hh => JVal.noConfusion hh)).1

/-- C2: a request whose id is absent — or explicitly `null` — whose
handler completes without raising, gets `(None, 204)`; the handler's
result value `v` is discarded (the conclusion does not depend on it). -/
theorem claim_C2_notification_branch
    (d : Dispatcher) (req : Jdoc) (name : String) (h : Handler) (v : JVal)
    (hval : d.validate_requests = false ∨ validRequest req = true)
    (hm : pyGet req "method" = some (JVal.str name))
    (hfind : findMethod d.methods name = some h)
    (hrun : invoke h (convertParams (pyGet req "params")).1
        (convertParams (pyGet req "params")).2 = Outcome.ok v)
    (hid : pyGet req "id" = none ∨ pyGet req "id" = some JVal.null) :
    dispatch d req = (none, 204) := by
  have hvb : (d.validate_requests && !validRequest req) = false := by
    rcases hval with h1 | h1 <;> simp [h1]
  have hidn : pyGetNonNull req "id" = none := by
    unfold pyGetNonNull
    rcases hid with h1 | h1 <;> rw [h1]
  unfold dispatch dispatchTry
  rw [hvb, hm]
  simp only [methodLookup, hfind, hrun, hidn, Bool.false_eq_true, if_false]

/-- C2 witness: both notification shapes — id absent, and id explicitly
`null` — against the `ping` registry; the handler's `"pong"` result is
discarded in both. -/
theorem claim_C2_witness :
    dispatch ⟨[("ping", pingHandler)], true, false⟩
        [("jsonrpc", JVal.str "2.0"), ("method", JVal.str "ping")] =
      (none, 204) ∧
    dispatch ⟨[("ping", pingHandler)], true, false⟩
        [("jsonrpc", JVal.str "2.0"), ("method", JVal.str "ping"),
         ("id", JVal.null)] =
      (none, 204) :=
  ⟨claim_C2_notification_branch
      ⟨[("ping", pingHandler)], true, false⟩
      [("jsonrpc", JVal.str "2.0"), ("method", JVal.str "ping")]
      "ping" pingHandler (JVal.str "pong")
      (Or.inr rfl) rfl rfl rfl (Or.inl rfl),
   claim_C2_notification_branch
      ⟨[("ping", pingHandler)], true, false⟩
      [("jsonrpc", JVal.str "2.0"), ("method", JVal.str "ping"),
       ("id", JVal.null)]
      "ping" pingHandler (JVal.str "pong")
      (Or.inr rfl) rfl rfl rfl (Or.inr rfl)⟩

/-! ## Debug gating of the error `data` member (C8) -/

/-- C8: the error response built by `dispatch`'s `except` clauses with
debug disabled carries an `error` object with no `data` key at all; with
debug enabled the `data` member is included verbatim — for every taxonomy
error and every request id. -/
theorem claim_C8_error_data_only_in_debug :
    ∀ (e : RpcError) (rid : Option JVal),
      pyGet (dispatchErrorResponse e rid false) "error" =
        some (JVal.obj [("code", JVal.num e.code),
          ("message", JVal.str e.message)]) ∧
      pyGet (dispatchErrorResponse e rid true) "error" =
        some (JVal.obj [("code", JVal.num e.code),
          ("message", JVal.str e.message), ("data", e.data)]) := by
  intro e rid
  constructor <;> cases rid <;> rfl

/-! ## `dispatch_str` short-circuits parse failures (C9) -/

/-- C9: an input string that fails to parse makes `dispatch_str` return
the `ParseError` document — error code −32700 — with status 400; the
answer is the same for every dispatcher state (registry, flags), so no
handler, registry entry or dispatch step is consulted. -/
theorem claim_C9_parse_error_short_circuit :
    ∀ d d' : Dispatcher,
      dispatch_str d ParseOutcome.failure =
        StrResult.returned (some (errorDocFull RpcError.parseError none))
          400 ∧
      dispatch_str d ParseOutcome.failure =
        dispatch_str d' ParseOutcome.failure ∧
      pyGet (errorDocFull RpcError.parseError none) "error" =
        some (JVal.obj [("code", JVal.num (-32700)),
          ("message", JVal.str "Parse error"), ("data", JVal.null)]) := by
  intro d d'
  exact ⟨rfl, rfl, rfl⟩

/-! ## Totality of `dispatch` and exception conversion (C10) -/

/-- The `try:` body only ever succeeds with status 200 or 204. -/
theorem dispatchTry_ok_status (d : Dispatcher) (req : Jdoc)
    (r : Option Jdoc × Nat) (h : dispatchTry d req = Except.ok r) :
    r.2 = 200 ∨ r.2 = 204 := by
  unfold dispatchTry at h
  repeat' split at h
  all_goals
    first
      | exact Except.noConfusion h
      | (cases h; exact Or.inl rfl)
      | (cases h; exact Or.inr rfl)

/-- C10: `dispatch` on a dict request always returns a pair — every
exception of the `try:` body is handled: the returned status is one of
200, 204, 400, 404, 500; a non-taxonomy exception (including one raised
inside the handler) becomes the generic `ServerError('See server logs')`
document with status 500; a taxonomy error becomes its own document with
its own status and the request's id attached. -/
theorem claim_C10_dispatch_total_error_handling (d : Dispatcher)
    (req : Jdoc) :
    ((dispatch d req).2 = 200 ∨ (dispatch d req).2 = 204 ∨
      (dispatch d req).2 = 400 ∨ (dispatch d req).2 = 404 ∨
      (dispatch d req).2 = 500) ∧
    (∀ m, dispatchTry d req = Except.error (DispatchExn.exn m) →
      dispatch d req =
        (some (dispatchErrorResponse
          (RpcError.serverError "See server logs") none d.debug), 500)) ∧
    (∀ e, dispatchTry d req = Except.error (DispatchExn.rpc e) →
      dispatch d req =
        (some (dispatchErrorResponse e (pyGetNonNull req "id") d.debug),
         e.httpStatus)) := by
  refine ⟨?_, ?_, ?_⟩
  · rcases htry : dispatchTry d req with e | r
    · unfold dispatch
      rw [htry]
      cases e with
      | rpc e' =>
        cases e' <;> simp [RpcError.httpStatus]
      | exn m => simp
    · unfold dispatch
      rw [htry]
      rcases dispatchTry_ok_status d req r htry with h2 | h2
      · exact Or.inl h2
      · exact Or.inr (Or.inl h2)
  · intro m hm
    unfold dispatch
    rw [hm]
  · intro e he
    unfold dispatch
    rw [he]

/-- C10 witness: a handler that raises a non-taxonomy exception yields
the generic 500 server-error response, and an invalid (empty) request
under validation yields the `InvalidRequest` response with status 400. -/
theorem claim_C10_witness :
    dispatch ⟨[("boom", boomHandler)], false, false⟩
        [("method", JVal.str "boom")] =
      (some (dispatchErrorResponse
        (RpcError.serverError "See server logs") none false), 500) ∧
    dispatch ⟨[], true, false⟩ [] =
      (some (dispatchErrorResponse
        (RpcError.invalidRequest
          "request does not match the JSON-RPC schema") none false),
       400) :=
  ⟨(claim_C10_dispatch_total_error_handling
      ⟨[("boom", boomHandler)], false, false⟩
      [("method", JVal.str "boom")]).2.1 "ValueError: boom" rfl,
   (claim_C10_dispatch_total_error_handling ⟨[], true, false⟩ []).2.2
      (RpcError.invalidRequest "request does not match the JSON-RPC schema")
      rfl⟩
